import Mathlib

/-!
Verification of the simulation core of the Parkour_Double dual-runner game
(`src/App.tsx`).  Positions, sizes, speeds and times are embedded as
rationals; obstacle ids (fresh `Math.random()` draws used only as React
keys) are omitted since no behaviour reads them.  Random draws consumed by
the code are passed in explicitly as oracle parameters.
-/

namespace Parkour

/-! ### Constants (App.tsx lines 20-31) -/

def GAME_WIDTH : ℚ := 800
def GAME_HEIGHT : ℚ := 300
def PLAYER_SIZE : ℚ := 30
def OBSTACLE_WIDTH : ℚ := 20
def OBSTACLE_HEIGHT : ℚ := 60
def GROUND_HEIGHT : ℚ := 50
def MIN_OBSTACLE_DISTANCE : ℚ := 150
def LANES : ℕ := 5
def ROAD_WIDTH : ℚ := GAME_WIDTH * 0.6
def ROAD_OFFSET : ℚ := (GAME_WIDTH - ROAD_WIDTH) / 2
def LANE_WIDTH : ℚ := ROAD_WIDTH / (LANES : ℚ)
def TOP_PLAYER_Y : ℚ := GAME_HEIGHT - 40

/-- Ground-level y of the bottom player, `GAME_HEIGHT - GROUND_HEIGHT - PLAYER_SIZE / 2`
(computed inline at App.tsx lines 43, 108, 172). -/
def groundY : ℚ := GAME_HEIGHT - GROUND_HEIGHT - PLAYER_SIZE / 2

/-- Centre x of a lane, `ROAD_OFFSET + lane * LANE_WIDTH + LANE_WIDTH / 2`
(App.tsx lines 44, 133, 148, 375, 395). -/
def laneCenterX (lane : ℕ) : ℚ := ROAD_OFFSET + (lane : ℚ) * LANE_WIDTH + LANE_WIDTH / 2

/-! ### Data model -/

structure Player where
  x : ℚ
  y : ℚ
deriving DecidableEq, Repr

/-- Obstacle variant tags.  The code's union type (App.tsx line 16) names
`air_box` but the constructed object (line 250) carries the literal
`air_branch`; we use the constructed tag. -/
inductive ObstacleType where
  | pit
  | ground_box
  | air_branch
  | normal
deriving DecidableEq, Repr

structure Obstacle where
  x : ℚ
  y : ℚ
  width : ℚ
  height : ℚ
  type : ObstacleType
  lane : Option ℕ
deriving DecidableEq, Repr

inductive GameState where
  | idle
  | playing
  | paused
  | gameOver
deriving DecidableEq, Repr

inductive BottomPlayerState where
  | running
  | jumping
  | crawling
deriving DecidableEq, Repr

/-- The keys the handlers recognise (App.tsx lines 69-90, 112, 120, 130, 145);
`space` is the pause toggle, `other` stands for any unrecognised key. -/
inductive Key where
  | arrowUp
  | arrowDown
  | arrowLeft
  | arrowRight
  | keyW
  | keyWCap
  | keyS
  | keySCap
  | keyA
  | keyACap
  | keyD
  | keyDCap
  | space
  | other
deriving DecidableEq, Repr

/-- `keysPressed.has('ArrowUp') || keysPressed.has('w') || keysPressed.has('W')`. -/
def hasUp (k : Finset Key) : Bool :=
  decide (Key.arrowUp ∈ k) || decide (Key.keyW ∈ k) || decide (Key.keyWCap ∈ k)

/-- `keysPressed.has('ArrowDown') || keysPressed.has('s') || keysPressed.has('S')`. -/
def hasDown (k : Finset Key) : Bool :=
  decide (Key.arrowDown ∈ k) || decide (Key.keyS ∈ k) || decide (Key.keySCap ∈ k)

/-- `keysPressed.has('ArrowLeft') || keysPressed.has('a') || keysPressed.has('A')`. -/
def hasLeft (k : Finset Key) : Bool :=
  decide (Key.arrowLeft ∈ k) || decide (Key.keyA ∈ k) || decide (Key.keyACap ∈ k)

/-- `keysPressed.has('ArrowRight') || keysPressed.has('d') || keysPressed.has('D')`. -/
def hasRight (k : Finset Key) : Bool :=
  decide (Key.arrowRight ∈ k) || decide (Key.keyD ∈ k) || decide (Key.keyDCap ∈ k)

/-- Deletion of `'ArrowLeft'`, `'a'`, `'A'` (App.tsx lines 137-143). -/
def removeLeftKeys (k : Finset Key) : Finset Key :=
  ((k.erase Key.arrowLeft).erase Key.keyA).erase Key.keyACap

/-- Deletion of `'ArrowRight'`, `'d'`, `'D'` (App.tsx lines 152-158). -/
def removeRightKeys (k : Finset Key) : Finset Key :=
  ((k.erase Key.arrowRight).erase Key.keyD).erase Key.keyDCap

/-- The whole mutable React state of `App` that the simulation reads or
writes, plus `crawlTimers`: the deadlines of the `setTimeout` crawl-revert
callbacks pending in the event loop (App.tsx line 123), which are not React
state but are needed to model the deferred revert. -/
structure Session where
  gameState : GameState
  score : ℕ
  highScore : ℕ
  bottomPlayer : Player
  topPlayer : Player
  topPlayerLane : ℕ
  bottomObstacles : List Obstacle
  topObstacles : List Obstacle
  gameSpeed : ℚ
  topScreenSpeed : ℚ
  bottomScreenSpeed : ℚ
  lastTopObstacleTime : ℚ
  lastBottomObstacleX : ℚ
  keysPressed : Finset Key
  bottomPlayerState : BottomPlayerState
  jumpVelocity : ℚ
  crawlTimers : List ℚ
deriving DecidableEq

/-- The initial values of all `useState` hooks (App.tsx lines 35-65), with the
stored high score defaulting to 0. -/
def initSession : Session where
  gameState := GameState.idle
  score := 0
  highScore := 0
  bottomPlayer := ⟨100, GAME_HEIGHT - GROUND_HEIGHT - PLAYER_SIZE / 2⟩
  topPlayer := ⟨ROAD_OFFSET + LANE_WIDTH * 2 + LANE_WIDTH / 2, TOP_PLAYER_Y⟩
  topPlayerLane := 2
  bottomObstacles := []
  topObstacles := []
  gameSpeed := 2
  topScreenSpeed := 1.5
  bottomScreenSpeed := 2
  lastTopObstacleTime := 0
  lastBottomObstacleX := GAME_WIDTH
  keysPressed := ∅
  bottomPlayerState := BottomPlayerState.running
  jumpVelocity := 0
  crawlTimers := []

/-! ### Input handlers (App.tsx lines 68-99) -/

/-- `handleKeyDown`: space toggles playing/paused and is not latched; every
other key is added to the pressed set. -/
def handleKeyDown (k : Key) (s : Session) : Session :=
  if k = Key.space then
    if s.gameState = GameState.playing then { s with gameState := GameState.paused }
    else if s.gameState = GameState.paused then { s with gameState := GameState.playing }
    else s
  else { s with keysPressed := insert k s.keysPressed }

/-- `handleKeyUp`: the key is removed from the pressed set. -/
def handleKeyUp (k : Key) (s : Session) : Session :=
  { s with keysPressed := s.keysPressed.erase k }

/-! ### Per-tick player update (App.tsx lines 102-164)

The interval only exists while `gameState === 'playing'`.  Both the jump and
the crawl branches read the render-captured `bottomPlayerState`, so the crawl
branch still sees `running` even when the jump branch fired in the same tick,
and its queued state write is applied last and wins.  The crawl branch also
schedules `setTimeout(() => setBottomPlayerState('running'), 600)`, modelled
by appending the deadline `now + 600` to `crawlTimers`.  The right-arrow
branch reads the same captured key set as the left-arrow branch; since the
left branch erases only left keys, reading the post-erasure set is
equivalent, and `Math.max(0, lane - 1)` is ℕ-subtraction. -/
def updatePlayers (now : ℚ) (s : Session) : Session :=
  if s.gameState = GameState.playing then
    let jumpFires := hasUp s.keysPressed
      ∧ s.bottomPlayerState = BottomPlayerState.running
      ∧ s.bottomPlayer.y ≥ groundY - 5
    let crawlFires := hasDown s.keysPressed
      ∧ s.bottomPlayerState = BottomPlayerState.running
    let s1 : Session := { s with
      bottomPlayerState :=
        if crawlFires then BottomPlayerState.crawling
        else if jumpFires then BottomPlayerState.jumping
        else s.bottomPlayerState
      jumpVelocity := if jumpFires then -18 else s.jumpVelocity
      crawlTimers := if crawlFires then s.crawlTimers ++ [now + 600] else s.crawlTimers }
    let s2 : Session :=
      if hasLeft s1.keysPressed then
        let newLane := s1.topPlayerLane - 1
        { s1 with
          topPlayerLane := newLane
          topPlayer := { s1.topPlayer with x := laneCenterX newLane }
          keysPressed := removeLeftKeys s1.keysPressed }
      else s1
    if hasRight s2.keysPressed then
      let newLane := min (LANES - 1) (s2.topPlayerLane + 1)
      { s2 with
        topPlayerLane := newLane
        topPlayer := { s2.topPlayer with x := laneCenterX newLane }
        keysPressed := removeRightKeys s2.keysPressed }
    else s2
  else s

/-! ### Jump physics (App.tsx lines 167-188) -/

/-- One tick of the `jumpPhysics` interval, which only exists while
`gameState === 'playing'` and `bottomPlayerState === 'jumping'`. -/
def jumpPhysicsStep (s : Session) : Session :=
  if s.gameState = GameState.playing ∧ s.bottomPlayerState = BottomPlayerState.jumping then
    let newY := s.bottomPlayer.y + s.jumpVelocity
    if newY ≥ groundY then
      { s with
        bottomPlayer := { s.bottomPlayer with y := groundY }
        bottomPlayerState := BottomPlayerState.running
        jumpVelocity := 0 }
    else
      { s with
        bottomPlayer := { s.bottomPlayer with y := newY }
        jumpVelocity := s.jumpVelocity + 0.7 }
  else s

/-! ### Obstacle generation (App.tsx lines 191-254)

`generateObstacle(true)` is dead code: the game loop builds top batches
inline (lines 297-309) and only ever calls `generateObstacle(false)`. -/

/-- The three-way split of the single draw `rand = Math.random()`
(App.tsx lines 212-220). -/
def chooseBottomType (rand : ℚ) : ObstacleType :=
  if rand < 0.33 then ObstacleType.pit
  else if rand < 0.66 then ObstacleType.ground_box
  else ObstacleType.air_branch

/-- The `isTop = false` branch of `generateObstacle` (App.tsx lines 210-253). -/
def generateBottomObstacle (rand : ℚ) : Obstacle :=
  let obstacleType := chooseBottomType rand
  if obstacleType = ObstacleType.pit then
    { x := GAME_WIDTH, y := GAME_HEIGHT - GROUND_HEIGHT,
      width := 50, height := 30, type := ObstacleType.pit, lane := none }
  else if obstacleType = ObstacleType.ground_box then
    { x := GAME_WIDTH, y := GAME_HEIGHT - GROUND_HEIGHT - 40,
      width := 35, height := 40, type := ObstacleType.ground_box, lane := none }
  else
    { x := GAME_WIDTH, y := GAME_HEIGHT - GROUND_HEIGHT - 45,
      width := 60, height := 15, type := ObstacleType.air_branch, lane := none }

/-- A bottom obstacle after it has scrolled left by a total distance `d`
(accumulated applications of App.tsx line 264). -/
def scrolled (o : Obstacle) (d : ℚ) : Obstacle := { o with x := o.x - d }

/-- One obstacle of a top batch (App.tsx lines 301-309). -/
def mkTopObstacle (lane : ℕ) : Obstacle :=
  { x := ROAD_OFFSET + (lane : ℚ) * LANE_WIDTH + LANE_WIDTH * 0.1, y := -30,
    width := LANE_WIDTH * 0.8, height := 30, type := ObstacleType.normal,
    lane := some lane }

/-- `Math.floor(Math.random() * (LANES - 1)) + 1` (App.tsx line 298). -/
def numTopObstacles (numRand : ℚ) : ℕ := (⌊numRand * ((LANES : ℚ) - 1)⌋).toNat + 1

/-- The batch `obstacleLanes.map(...)` where `obstacleLanes` is the first
`numObstacles` entries of the randomly shuffled lane list (App.tsx
lines 297-309); the shuffle's outcome is passed in as `lanePerm`. -/
def topSpawnBatch (numRand : ℚ) (lanePerm : List ℕ) : List Obstacle :=
  (lanePerm.take (numTopObstacles numRand)).map mkTopObstacle

/-! ### Game loop (App.tsx lines 257-322) -/

/-- The random draws and the wall clock one `gameLoop` tick consumes. -/
structure TickRand where
  bottomGate : ℚ
  typeRand : ℚ
  topGate : ℚ
  numRand : ℚ
  lanePerm : List ℕ
  now : ℚ
deriving DecidableEq

/-- Bottom obstacles after the per-tick move/cull (App.tsx lines 262-266). -/
def movedBottomObstacles (s : Session) : List Obstacle :=
  (s.bottomObstacles.map fun o => { o with x := o.x - s.bottomScreenSpeed }).filter
    fun o => decide (o.x > -o.width)

/-- Top obstacles after the per-tick move/cull (App.tsx lines 269-273). -/
def movedTopObstacles (s : Session) : List Obstacle :=
  (s.topObstacles.map fun o => { o with y := o.y + s.topScreenSpeed }).filter
    fun o => decide (o.y < GAME_HEIGHT + o.height)

/-- One tick of the `gameLoop` interval, which only exists while
`gameState === 'playing'`.  The follow-up `setLastBottomObstacleX` updater
(lines 288-291) reads the render-captured (pre-tick) obstacle list. -/
def gameLoopTick (r : TickRand) (s : Session) : Session :=
  if s.gameState = GameState.playing then
    let doBottomSpawn := r.bottomGate < 0.015
      ∧ GAME_WIDTH - s.lastBottomObstacleX > MIN_OBSTACLE_DISTANCE
    let bottomObstacles' :=
      if doBottomSpawn then movedBottomObstacles s ++ [generateBottomObstacle r.typeRand]
      else movedBottomObstacles s
    let lastBottomX1 := if doBottomSpawn then GAME_WIDTH else s.lastBottomObstacleX
    let lastBottomX2 :=
      match s.bottomObstacles.getLast? with
      | some o => o.x
      | none => lastBottomX1 - s.gameSpeed
    let doTopSpawn := r.topGate < 0.015 ∧ r.now - s.lastTopObstacleTime > 2000
    { s with
      bottomObstacles := bottomObstacles'
      topObstacles :=
        if doTopSpawn then movedTopObstacles s ++ topSpawnBatch r.numRand r.lanePerm
        else movedTopObstacles s
      lastBottomObstacleX := lastBottomX2
      lastTopObstacleTime := if doTopSpawn then r.now else s.lastTopObstacleTime
      score := s.score + 1
      topScreenSpeed := min (s.topScreenSpeed + 0.0008) 4
      bottomScreenSpeed := min (s.bottomScreenSpeed + 0.0015) 6
      gameSpeed := min (s.gameSpeed + 0.001) 5 }
  else s

/-! ### Collision detection (App.tsx lines 327-366) -/

/-- One player-vs-obstacle test, the body of the `obstacles.some` callback in
`checkCollision`: the hitbox is the `PLAYER_SIZE` square centred at the
player, except a crawling bottom player whose hitbox keeps the horizontal
span but occupies only `[y, y + PLAYER_SIZE / 3]` vertically. -/
def collidesWith (player : Player) (bState : BottomPlayerState) (isBottom : Bool)
    (obs : Obstacle) : Bool :=
  let playerLeft := player.x - PLAYER_SIZE / 2
  let playerRight := player.x + PLAYER_SIZE / 2
  let playerTop :=
    if isBottom ∧ bState = BottomPlayerState.crawling then player.y
    else player.y - PLAYER_SIZE / 2
  let playerBottom :=
    if isBottom ∧ bState = BottomPlayerState.crawling then player.y + PLAYER_SIZE / 3
    else player.y + PLAYER_SIZE / 2
  let obsLeft := obs.x
  let obsRight := obs.x + obs.width
  let obsTop := obs.y
  let obsBottom := obs.y + obs.height
  decide (playerRight > obsLeft ∧ playerLeft < obsRight ∧
          playerBottom > obsTop ∧ playerTop < obsBottom)

/-- `checkCollision(player, obstacles, isBottom)` (App.tsx lines 331-357). -/
def checkCollision (player : Player) (obstacles : List Obstacle)
    (isBottom : Bool) (bState : BottomPlayerState) : Bool :=
  obstacles.any (collidesWith player bState isBottom)

/-- The collision effect (App.tsx lines 359-365): on a hit while playing,
enter `gameOver` and record a new high score. -/
def collisionCheckStep (s : Session) : Session :=
  if s.gameState = GameState.playing ∧
      (checkCollision s.bottomPlayer s.bottomObstacles true s.bottomPlayerState
       || checkCollision s.topPlayer s.topObstacles false s.bottomPlayerState) then
    { s with
      gameState := GameState.gameOver
      highScore := if s.score > s.highScore then s.score else s.highScore }
  else s

/-! ### Buttons (App.tsx lines 368-402) -/

/-- `startGame`: note it does not touch `lastBottomObstacleX`, `keysPressed`,
`highScore` or the pending crawl timers. -/
def startGame (s : Session) : Session :=
  { s with
    gameState := GameState.playing
    score := 0
    gameSpeed := 2
    topScreenSpeed := 1.5
    bottomScreenSpeed := 2
    bottomPlayer := ⟨100, GAME_HEIGHT - GROUND_HEIGHT - PLAYER_SIZE / 2⟩
    topPlayer := ⟨ROAD_OFFSET + LANE_WIDTH * 2 + LANE_WIDTH / 2, TOP_PLAYER_Y⟩
    topPlayerLane := 2
    bottomObstacles := []
    topObstacles := []
    bottomPlayerState := BottomPlayerState.running
    jumpVelocity := 0
    lastTopObstacleTime := 0 }

/-- `pauseGame`: anything other than `paused` becomes `paused`. -/
def pauseGame (s : Session) : Session :=
  { s with gameState :=
      if s.gameState = GameState.paused then GameState.playing else GameState.paused }

/-- `resetGame`: identical to `startGame` except the target state is `idle`. -/
def resetGame (s : Session) : Session :=
  { startGame s with gameState := GameState.idle }

/-- Firing of the earliest pending crawl-revert `setTimeout` callback
(App.tsx line 123): it runs `setBottomPlayerState('running')` whatever the
game state is by then.  With no pending callback nothing happens. -/
def fireCrawlTimer (s : Session) : Session :=
  match s.crawlTimers with
  | [] => s
  | _ :: rest => { s with bottomPlayerState := BottomPlayerState.running, crawlTimers := rest }

/-! ### The event alphabet of a run -/

/-- Every way the environment can advance the session: key events, the three
interval ticks, the collision effect, the buttons, and a pending crawl-revert
callback firing. -/
inductive Op where
  | keydown (k : Key)
  | keyup (k : Key)
  | playersTick (now : ℚ)
  | jumpTick
  | loopTick (r : TickRand)
  | collideTick
  | startBtn
  | pauseBtn
  | resetBtn
  | crawlTimerFire

def applyOp (s : Session) : Op → Session
  | Op.keydown k => handleKeyDown k s
  | Op.keyup k => handleKeyUp k s
  | Op.playersTick now => updatePlayers now s
  | Op.jumpTick => jumpPhysicsStep s
  | Op.loopTick r => gameLoopTick r s
  | Op.collideTick => collisionCheckStep s
  | Op.startBtn => startGame s
  | Op.pauseBtn => pauseGame s
  | Op.resetBtn => resetGame s
  | Op.crawlTimerFire => fireCrawlTimer s

/-- Running an arbitrary interleaving of events from a state. -/
def runOps (s : Session) (ops : List Op) : Session := ops.foldl applyOp s

/-- `startBtn` and `resetBtn` are the only events that reset the score. -/
def Op.isReset : Op → Bool
  | Op.startBtn => true
  | Op.resetBtn => true
  | _ => false

/-- The crawl-revert callback event. -/
def Op.isCrawlFire : Op → Bool
  | Op.crawlTimerFire => true
  | _ => false

/-! ### Boxes and spans, for stating the collision claims -/

structure Box where
  left : ℚ
  right : ℚ
  top : ℚ
  bottom : ℚ
deriving DecidableEq

/-- The hitbox `checkCollision` computes for the player. -/
def playerHitbox (player : Player) (bState : BottomPlayerState) (isBottom : Bool) : Box :=
  if isBottom ∧ bState = BottomPlayerState.crawling then
    { left := player.x - PLAYER_SIZE / 2, right := player.x + PLAYER_SIZE / 2,
      top := player.y, bottom := player.y + PLAYER_SIZE / 3 }
  else
    { left := player.x - PLAYER_SIZE / 2, right := player.x + PLAYER_SIZE / 2,
      top := player.y - PLAYER_SIZE / 2, bottom := player.y + PLAYER_SIZE / 2 }

/-- The box `checkCollision` computes for an obstacle. -/
def obsBox (o : Obstacle) : Box :=
  { left := o.x, right := o.x + o.width, top := o.y, bottom := o.y + o.height }

/-- Strict overlap on both axes: each horizontal span strictly intersects the
other's, and likewise vertically. -/
def strictOverlap (a b : Box) : Prop :=
  a.right > b.left ∧ a.left < b.right ∧ a.bottom > b.top ∧ a.top < b.bottom

/-- The two boxes merely touch at an edge: on some axis one span's endpoint
equals the other's start (zero-width overlap). -/
def touchesAtEdge (a b : Box) : Prop :=
  a.right = b.left ∨ b.right = a.left ∨ a.bottom = b.top ∨ b.bottom = a.top

/-! ### Concrete inputs used by witnesses and counterexamples -/

/-- The session right after pressing the jump key at ground level and letting
one `updatePlayers` tick latch it. -/
def jumpStartSession : Session :=
  updatePlayers 0 (handleKeyDown Key.arrowUp (startGame initSession))

/-- A tick whose draws pass the top-stream gate (`0.01 < 0.015`) with the
identity shuffle, `numRand = 1/2` and wall clock 3000 ms. -/
def spawnTickRand : TickRand :=
  { bottomGate := 1, typeRand := 1, topGate := 0.01, numRand := 1/2,
    lanePerm := [0, 1, 2, 3, 4], now := 3000 }

/-- A tick whose draws fail both spawn gates. -/
def noSpawnTickRand : TickRand :=
  { bottomGate := 1, typeRand := 0, topGate := 1, numRand := 0,
    lanePerm := [], now := 0 }

/-! ## Theorems -/

/-- The per-obstacle test is exactly the strict-overlap test of the hitbox
against the obstacle box. -/
lemma collidesWith_iff (p : Player) (st : BottomPlayerState) (isB : Bool) (o : Obstacle) :
    collidesWith p st isB o = true ↔ strictOverlap (playerHitbox p st isB) (obsBox o) := by
  by_cases h : (isB : Prop) ∧ st = BottomPlayerState.crawling <;>
    simp [collidesWith, playerHitbox, obsBox, strictOverlap, h]

lemma checkCollision_single_eq_false (p : Player) (st : BottomPlayerState) (isB : Bool)
    (o : Obstacle) (h : ¬ strictOverlap (playerHitbox p st isB) (obsBox o)) :
    checkCollision p [o] isB st = false := by
  cases hcw : collidesWith p st isB o
  · simp [checkCollision, hcw]
  · exact absurd ((collidesWith_iff p st isB o).mp hcw) h

lemma groundY_eq : groundY = 235 := by
  norm_num [groundY, GAME_HEIGHT, GROUND_HEIGHT, PLAYER_SIZE]

lemma playerHitbox_running (p : Player) :
    playerHitbox p BottomPlayerState.running true =
      { left := p.x - 15, right := p.x + 15, top := p.y - 15, bottom := p.y + 15 } := by
  simp [playerHitbox, PLAYER_SIZE] <;> norm_num

lemma generateBottomObstacle_pit :
    generateBottomObstacle 0 =
      { x := 800, y := 250, width := 50, height := 30,
        type := ObstacleType.pit, lane := none } := by
  have h : chooseBottomType 0 = ObstacleType.pit := by
    norm_num [chooseBottomType]
  simp [generateBottomObstacle, h, GAME_WIDTH, GAME_HEIGHT, GROUND_HEIGHT] <;> norm_num

lemma generateBottomObstacle_airBranch :
    generateBottomObstacle (7/10) =
      { x := 800, y := 205, width := 60, height := 15,
        type := ObstacleType.air_branch, lane := none } := by
  have h : chooseBottomType (7/10) = ObstacleType.air_branch := by
    norm_num [chooseBottomType]
  simp [generateBottomObstacle, h, GAME_WIDTH, GAME_HEIGHT, GROUND_HEIGHT] <;> norm_num

/-- **C1**  `checkCollision` reports a collision for a player and an obstacle
iff the player's hitbox and the obstacle's box strictly overlap on both axes
(`playerRight > obsLeft ∧ playerLeft < obsRight ∧ playerBottom > obsTop ∧
playerTop < obsBottom`); for boxes that only touch at an edge it returns
false. -/
theorem checkCollision_iff_strictOverlap :
    ∀ (p : Player) (st : BottomPlayerState) (isB : Bool) (o : Obstacle),
      (checkCollision p [o] isB st = true ↔
        strictOverlap (playerHitbox p st isB) (obsBox o)) ∧
      (touchesAtEdge (playerHitbox p st isB) (obsBox o) →
        checkCollision p [o] isB st = false) := by
  intro p st isB o
  have h := collidesWith_iff p st isB o
  have hiff : checkCollision p [o] isB st = true ↔
      strictOverlap (playerHitbox p st isB) (obsBox o) := by
    simpa [checkCollision] using h
  refine ⟨hiff, fun ht => ?_⟩
  have hno : ¬ strictOverlap (playerHitbox p st isB) (obsBox o) := by
    rcases ht with h1 | h1 | h1 | h1 <;>
      · rintro ⟨o1, o2, o3, o4⟩
        linarith
  cases hcw : checkCollision p [o] isB st
  · rfl
  · exact absurd (hiff.mp hcw) hno

/-- Witness for C1: the bottom player running at ground level and a pit whose
box touches the player's hitbox exactly at the ground line. -/
theorem checkCollision_iff_strictOverlap_witness :
    checkCollision ⟨100, 235⟩
      [{ x := 90, y := 250, width := 50, height := 30,
         type := ObstacleType.pit, lane := none }] true BottomPlayerState.running = false :=
  (checkCollision_iff_strictOverlap ⟨100, 235⟩ BottomPlayerState.running true _).2
    (Or.inr (Or.inr (Or.inl (by rw [playerHitbox_running]; norm_num [obsBox]))))

/-- **C2**  Refuted on the code, which contradicts its own comments (App.tsx
lines 233, 243: ground boxes `需要跳跃` need a jump, air branches `需要爬行`
need a crawl): a bottom player running at ground level is never reported as
colliding with a `pit` or an `air_branch`, however the horizontal spans
overlap — the pit's box starts exactly at the player's hitbox bottom
(250 = 250) and the branch's box ends exactly at the player's hitbox top
(220 = 220), and the overlap test is strict.  The last two conjuncts show a
concrete scrolled pit whose horizontal span does strictly overlap the
player's. -/
theorem running_player_never_hits_pit_or_airBranch :
    ∀ (px d : ℚ),
      checkCollision ⟨px, groundY⟩ [scrolled (generateBottomObstacle 0) d] true
        BottomPlayerState.running = false ∧
      checkCollision ⟨px, groundY⟩ [scrolled (generateBottomObstacle (7/10)) d] true
        BottomPlayerState.running = false ∧
      (playerHitbox ⟨100, groundY⟩ BottomPlayerState.running true).right >
        (obsBox (scrolled (generateBottomObstacle 0) 710)).left ∧
      (playerHitbox ⟨100, groundY⟩ BottomPlayerState.running true).left <
        (obsBox (scrolled (generateBottomObstacle 0) 710)).right := by
  intro px d
  refine ⟨checkCollision_single_eq_false _ _ _ _ ?_, checkCollision_single_eq_false _ _ _ _ ?_,
    ?_, ?_⟩
  · rintro ⟨-, -, h3, -⟩
    rw [playerHitbox_running, generateBottomObstacle_pit] at h3
    simp [obsBox, scrolled, groundY_eq] at h3
    linarith
  · rintro ⟨-, -, -, h4⟩
    rw [playerHitbox_running, generateBottomObstacle_airBranch] at h4
    simp [obsBox, scrolled, groundY_eq] at h4
    linarith
  · rw [playerHitbox_running, generateBottomObstacle_pit]
    simp [obsBox, scrolled]
    norm_num
  · rw [playerHitbox_running, generateBottomObstacle_pit]
    simp [obsBox, scrolled]
    norm_num

/-! ### C3: jump physics -/

lemma jumpStart_fields :
    jumpStartSession.gameState = GameState.playing ∧
    jumpStartSession.bottomPlayerState = BottomPlayerState.jumping ∧
    jumpStartSession.jumpVelocity = -18 ∧
    jumpStartSession.bottomPlayer.y = 235 := by
  have hy : ((startGame initSession).bottomPlayer.y ≥ groundY - 5) := by
    norm_num [startGame, groundY, GAME_HEIGHT, GROUND_HEIGHT, PLAYER_SIZE]
  simp [jumpStartSession, updatePlayers, handleKeyDown, startGame, initSession,
    hasUp, hasDown, hasLeft, hasRight, hy]
  norm_num [groundY, GAME_HEIGHT, GROUND_HEIGHT, PLAYER_SIZE]

lemma jump_iterate_closed :
    ∀ k : ℕ, k ≤ 52 →
      (jumpPhysicsStep^[k] jumpStartSession).gameState = GameState.playing ∧
      (jumpPhysicsStep^[k] jumpStartSession).bottomPlayerState = BottomPlayerState.jumping ∧
      (jumpPhysicsStep^[k] jumpStartSession).bottomPlayer.y =
        235 + (k : ℚ) * (7 * (k : ℚ) - 367) / 20 ∧
      (jumpPhysicsStep^[k] jumpStartSession).jumpVelocity = (7 * (k : ℚ) - 180) / 10 := by
  intro k
  induction k with
  | zero =>
    intro _
    obtain ⟨hg, hs, hv, hy⟩ := jumpStart_fields
    refine ⟨hg, hs, ?_, ?_⟩
    · rw [Function.iterate_zero_apply, hy]; norm_num
    · rw [Function.iterate_zero_apply, hv]; norm_num
  | succ n ih =>
    intro hn
    obtain ⟨hg, hs, hy, hv⟩ := ih (by omega)
    have hcast : (n : ℚ) ≤ 51 := by exact_mod_cast (by omega : n ≤ 51)
    have h0 : (0 : ℚ) ≤ (n : ℚ) := Nat.cast_nonneg n
    have hnotland :
        ¬ ((jumpPhysicsStep^[n] jumpStartSession).bottomPlayer.y +
            (jumpPhysicsStep^[n] jumpStartSession).jumpVelocity ≥ groundY) := by
      rw [hy, hv, groundY_eq, not_le]
      nlinarith
    rw [Function.iterate_succ_apply']
    rw [jumpPhysicsStep, if_pos ⟨hg, hs⟩, if_neg hnotland]
    refine ⟨hg, hs, ?_, ?_⟩
    · show (jumpPhysicsStep^[n] jumpStartSession).bottomPlayer.y +
          (jumpPhysicsStep^[n] jumpStartSession).jumpVelocity = _
      rw [hy, hv]
      push_cast
      ring
    · show (jumpPhysicsStep^[n] jumpStartSession).jumpVelocity + 0.7 = _
      rw [hv]
      push_cast
      norm_num
      ring

lemma jumpPhysicsStep_y_le (s : Session) (h : s.bottomPlayer.y ≤ groundY) :
    (jumpPhysicsStep s).bottomPlayer.y ≤ groundY := by
  simp only [jumpPhysicsStep]
  split_ifs with h1 h2
  · exact le_refl groundY
  · exact le_of_lt (not_le.mp h2)
  · exact h

/-- **C3**  From ground level in state `running`, one `updatePlayers` tick
with the jump key held latches state `jumping` with the fixed initial
velocity −18; each `jumpPhysics` tick adds the velocity to y and then adds
gravity 0.7 to the velocity; after exactly 53 ticks y is clamped back to
exactly ground level, the velocity is zeroed and the state reverts to
`running`, y never ending below ground on the way. -/
theorem jump_terminates :
    (jumpStartSession.bottomPlayerState = BottomPlayerState.jumping ∧
     jumpStartSession.jumpVelocity = -18 ∧
     jumpStartSession.bottomPlayer.y = groundY) ∧
    (jumpPhysicsStep^[53] jumpStartSession).bottomPlayer.y = groundY ∧
    (jumpPhysicsStep^[53] jumpStartSession).jumpVelocity = 0 ∧
    (jumpPhysicsStep^[53] jumpStartSession).bottomPlayerState = BottomPlayerState.running ∧
    (∀ k : ℕ, k ≤ 52 →
      (jumpPhysicsStep^[k] jumpStartSession).bottomPlayerState = BottomPlayerState.jumping) ∧
    (∀ k : ℕ, (jumpPhysicsStep^[k] jumpStartSession).bottomPlayer.y ≤ groundY) := by
  obtain ⟨hg0, hs0, hv0, hy0⟩ := jumpStart_fields
  obtain ⟨hg, hs, hy, hv⟩ := jump_iterate_closed 52 le_rfl
  have hland :
      (jumpPhysicsStep^[52] jumpStartSession).bottomPlayer.y +
        (jumpPhysicsStep^[52] jumpStartSession).jumpVelocity ≥ groundY := by
    rw [hy, hv, groundY_eq]
    norm_num
  have h53 : jumpPhysicsStep^[53] jumpStartSession =
      jumpPhysicsStep (jumpPhysicsStep^[52] jumpStartSession) :=
    Function.iterate_succ_apply' jumpPhysicsStep 52 jumpStartSession
  refine ⟨⟨hs0, hv0, by rw [hy0, groundY_eq]⟩, ?_, ?_, ?_, ?_, ?_⟩
  · rw [h53, jumpPhysicsStep, if_pos ⟨hg, hs⟩, if_pos hland]
  · rw [h53, jumpPhysicsStep, if_pos ⟨hg, hs⟩, if_pos hland]
  · rw [h53, jumpPhysicsStep, if_pos ⟨hg, hs⟩, if_pos hland]
  · exact fun k hk => ((jump_iterate_closed k hk).2).1
  · intro k
    induction k with
    | zero => rw [Function.iterate_zero_apply, hy0, groundY_eq]
    | succ n ih =>
      rw [Function.iterate_succ_apply']
      exact jumpPhysicsStep_y_le _ ih

/-! ### C4: lane changes -/

lemma runOps_inv {P : Session → Prop}
    (h : ∀ (s : Session) (op : Op), P s → P (applyOp s op)) :
    ∀ (ops : List Op) (s : Session), P s → P (runOps s ops) := by
  intro ops
  induction ops with
  | nil => exact fun s hs => hs
  | cons op ops ih => exact fun s hs => ih (applyOp s op) (h s op hs)

lemma updatePlayers_laneInv (now : ℚ) (s : Session)
    (h : s.topPlayerLane ≤ LANES - 1 ∧ s.topPlayer.x = laneCenterX s.topPlayerLane) :
    (updatePlayers now s).topPlayerLane ≤ LANES - 1 ∧
      (updatePlayers now s).topPlayer.x =
        laneCenterX ((updatePlayers now s).topPlayerLane) := by
  obtain ⟨hlane, hx⟩ := h
  simp only [updatePlayers, LANES] at *
  split_ifs <;> simp_all <;> omega

lemma laneCenterX_two :
    ROAD_OFFSET + LANE_WIDTH * 2 + LANE_WIDTH / 2 = laneCenterX 2 := by
  norm_num [laneCenterX, ROAD_OFFSET, LANE_WIDTH, ROAD_WIDTH, GAME_WIDTH, LANES]

lemma laneInv_pres (s : Session) (op : Op)
    (h : s.topPlayerLane ≤ LANES - 1 ∧ s.topPlayer.x = laneCenterX s.topPlayerLane) :
    (applyOp s op).topPlayerLane ≤ LANES - 1 ∧
      (applyOp s op).topPlayer.x = laneCenterX (applyOp s op).topPlayerLane := by
  obtain ⟨hlane, hx⟩ := h
  cases op with
  | playersTick now => exact updatePlayers_laneInv now s ⟨hlane, hx⟩
  | keydown k =>
    simp only [applyOp, handleKeyDown]
    split_ifs <;> simp_all
  | keyup k => simp [applyOp, handleKeyUp, hlane, hx]
  | jumpTick =>
    simp only [applyOp, jumpPhysicsStep]
    split_ifs <;> simp_all
  | loopTick r =>
    simp only [applyOp, gameLoopTick]
    split_ifs <;> simp_all
  | collideTick =>
    simp only [applyOp, collisionCheckStep]
    split_ifs <;> simp_all
  | startBtn =>
    refine ⟨by simp [applyOp, startGame, LANES], ?_⟩
    simp [applyOp, startGame]
    exact laneCenterX_two
  | pauseBtn => simp [applyOp, pauseGame, hlane, hx]
  | resetBtn =>
    refine ⟨by simp [applyOp, resetGame, startGame, LANES], ?_⟩
    simp [applyOp, resetGame, startGame]
    exact laneCenterX_two
  | crawlTimerFire =>
    simp only [applyOp, fireCrawlTimer]
    cases s.crawlTimers <;> simp_all

lemma hasLeft_removeLeftKeys (k : Finset Key) : hasLeft (removeLeftKeys k) = false := by
  simp [hasLeft, removeLeftKeys]

lemma hasRight_removeLeftKeys (k : Finset Key) : hasRight (removeLeftKeys k) = hasRight k := by
  simp [hasRight, removeLeftKeys]

lemma hasRight_removeRightKeys (k : Finset Key) : hasRight (removeRightKeys k) = false := by
  simp [hasRight, removeRightKeys]

lemma updatePlayers_left (now : ℚ) (s : Session)
    (hplay : s.gameState = GameState.playing)
    (hl : hasLeft s.keysPressed = true) (hr : hasRight s.keysPressed = false) :
    (updatePlayers now s).topPlayerLane = s.topPlayerLane - 1 ∧
      (updatePlayers now s).topPlayer.x = laneCenterX (s.topPlayerLane - 1) ∧
      hasLeft (updatePlayers now s).keysPressed = false := by
  simp only [updatePlayers, if_pos hplay]
  simp [hl, hr, hasRight_removeLeftKeys, hasLeft_removeLeftKeys]

lemma updatePlayers_right (now : ℚ) (s : Session)
    (hplay : s.gameState = GameState.playing)
    (hr : hasRight s.keysPressed = true) (hl : hasLeft s.keysPressed = false) :
    (updatePlayers now s).topPlayerLane = min (LANES - 1) (s.topPlayerLane + 1) ∧
      (updatePlayers now s).topPlayer.x =
        laneCenterX (min (LANES - 1) (s.topPlayerLane + 1)) ∧
      hasRight (updatePlayers now s).keysPressed = false := by
  simp only [updatePlayers, if_pos hplay]
  simp [hl, hr, hasRight_removeRightKeys]

lemma updatePlayers_noMove (now : ℚ) (s : Session)
    (hl : hasLeft s.keysPressed = false) (hr : hasRight s.keysPressed = false) :
    (updatePlayers now s).topPlayerLane = s.topPlayerLane ∧
      (updatePlayers now s).topPlayer.x = s.topPlayer.x := by
  by_cases hplay : s.gameState = GameState.playing
  · simp only [updatePlayers, if_pos hplay]
    simp [hl, hr]
  · simp [updatePlayers, hplay]

/-- **C4**  Over every event interleaving from the initial state, the top
player's lane stays in `[0, LANES-1]` and its x is always the lane's centre
`ROAD_OFFSET + lane * LANE_WIDTH + LANE_WIDTH / 2`; an edge-triggered left
(right) action during an `updatePlayers` tick moves exactly one lane down
(up), clamped — `Math.max(0, lane-1)` is ℕ-subtraction — recomputes x as the
new lane's centre, and consumes the key immediately, so a further tick
without a fresh keydown moves nothing. -/
theorem topPlayer_lane_spec :
    (∀ ops : List Op,
      (runOps initSession ops).topPlayerLane ≤ LANES - 1 ∧
      (runOps initSession ops).topPlayer.x =
        laneCenterX (runOps initSession ops).topPlayerLane) ∧
    (∀ (s : Session) (now : ℚ), s.gameState = GameState.playing →
      hasLeft s.keysPressed = true → hasRight s.keysPressed = false →
      (updatePlayers now s).topPlayerLane = s.topPlayerLane - 1 ∧
      (updatePlayers now s).topPlayer.x = laneCenterX (s.topPlayerLane - 1) ∧
      hasLeft (updatePlayers now s).keysPressed = false) ∧
    (∀ (s : Session) (now : ℚ), s.gameState = GameState.playing →
      hasRight s.keysPressed = true → hasLeft s.keysPressed = false →
      (updatePlayers now s).topPlayerLane = min (LANES - 1) (s.topPlayerLane + 1) ∧
      (updatePlayers now s).topPlayer.x =
        laneCenterX (min (LANES - 1) (s.topPlayerLane + 1)) ∧
      hasRight (updatePlayers now s).keysPressed = false) ∧
    (∀ (s : Session) (now : ℚ),
      hasLeft s.keysPressed = false → hasRight s.keysPressed = false →
      (updatePlayers now s).topPlayerLane = s.topPlayerLane ∧
      (updatePlayers now s).topPlayer.x = s.topPlayer.x) := by
  refine ⟨?_, ?_, ?_, ?_⟩
  · intro ops
    refine runOps_inv laneInv_pres ops initSession ⟨by simp [initSession, LANES], ?_⟩
    simp [initSession]
    exact laneCenterX_two
  · exact fun s now hplay hl hr => updatePlayers_left now s hplay hl hr
  · exact fun s now hplay hr hl => updatePlayers_right now s hplay hr hl
  · exact fun s now hl hr => updatePlayers_noMove now s hl hr

/-- Witness for C4: from the freshly started session with only the left key
pressed, one tick moves lane 2 to lane 1, and a second tick (the key having
been consumed) leaves lane 1 unchanged. -/
theorem topPlayer_lane_spec_witness :
    (updatePlayers 0 (handleKeyDown Key.arrowLeft (startGame initSession))).topPlayerLane = 1 ∧
    (updatePlayers 16 (updatePlayers 0
        (handleKeyDown Key.arrowLeft (startGame initSession)))).topPlayerLane = 1 := by
  have h1 := (topPlayer_lane_spec.2.1 (handleKeyDown Key.arrowLeft (startGame initSession)) 0
    rfl (by decide) (by decide))
  have h2 := (topPlayer_lane_spec.2.2.2
    (updatePlayers 0 (handleKeyDown Key.arrowLeft (startGame initSession))) 16
    h1.2.2 ?_)
  · exact ⟨h1.1, by rw [h2.1, h1.1]; decide⟩
  · rw [show (updatePlayers 0 (handleKeyDown Key.arrowLeft
        (startGame initSession))).keysPressed = removeLeftKeys
        (insert Key.arrowLeft ∅) from ?_]
    · decide
    · simp only [updatePlayers, handleKeyDown, startGame, initSession]
      decide

/-! ### C6: score -/

lemma applyOp_score_mono (s : Session) (op : Op) (hop : op.isReset = false) :
    s.score ≤ (applyOp s op).score := by
  cases op with
  | keydown k =>
    simp only [applyOp, handleKeyDown]
    split_ifs <;> simp
  | keyup k => simp [applyOp, handleKeyUp]
  | playersTick now =>
    simp only [applyOp, updatePlayers]
    split_ifs <;> simp
  | jumpTick =>
    simp only [applyOp, jumpPhysicsStep]
    split_ifs <;> simp
  | loopTick r =>
    simp only [applyOp, gameLoopTick]
    split_ifs <;> simp
  | collideTick =>
    simp only [applyOp, collisionCheckStep]
    split_ifs <;> simp
  | startBtn => simp [Op.isReset] at hop
  | pauseBtn => simp [applyOp, pauseGame]
  | resetBtn => simp [Op.isReset] at hop
  | crawlTimerFire =>
    simp only [applyOp, fireCrawlTimer]
    cases s.crawlTimers <;> simp

/-- **C6**  A `gameLoop` tick taken while `playing` increases the score by
exactly 1; taken in any other state it is the identity (the interval is torn
down outside `playing`), so over any event sequence without a start/reset the
score is monotonically non-decreasing. -/
theorem score_spec :
    (∀ (r : TickRand) (s : Session), s.gameState = GameState.playing →
      (gameLoopTick r s).score = s.score + 1) ∧
    (∀ (r : TickRand) (s : Session), s.gameState ≠ GameState.playing →
      gameLoopTick r s = s) ∧
    (∀ (s : Session) (ops : List Op), (∀ op ∈ ops, op.isReset = false) →
      s.score ≤ (runOps s ops).score) := by
  refine ⟨?_, ?_, ?_⟩
  · intro r s h
    simp [gameLoopTick, h]
  · intro r s h
    simp [gameLoopTick, h]
  · intro s ops
    induction ops generalizing s with
    | nil => exact fun _ => le_refl _
    | cons op ops ih =>
      intro hall
      have h1 : s.score ≤ (applyOp s op).score :=
        applyOp_score_mono s op (hall op (List.mem_cons_self op ops))
      have h2 : (applyOp s op).score ≤ (runOps (applyOp s op) ops).score :=
        ih (applyOp s op) fun o ho => hall o (List.mem_cons_of_mem op ho)
      exact le_trans h1 h2

/-- Witness for C6: one obstacle-free tick from the freshly started session
bumps the score from 0 to 1. -/
theorem score_spec_witness :
    (gameLoopTick noSpawnTickRand (startGame initSession)).score =
      (startGame initSession).score + 1 :=
  score_spec.1 noSpawnTickRand (startGame initSession) rfl

/-! ### C9: crawl latch and timed revert -/

lemma applyOp_timers_kept (s : Session) (op : Op) (t : ℚ)
    (hop : op.isCrawlFire = false) (ht : t ∈ s.crawlTimers) :
    t ∈ (applyOp s op).crawlTimers := by
  cases op with
  | keydown k =>
    simp only [applyOp, handleKeyDown]
    split_ifs <;> simp_all
  | keyup k => simpa [applyOp, handleKeyUp] using ht
  | playersTick now =>
    simp only [applyOp, updatePlayers]
    split_ifs <;> simp_all
  | jumpTick =>
    simp only [applyOp, jumpPhysicsStep]
    split_ifs <;> simp_all
  | loopTick r =>
    simp only [applyOp, gameLoopTick]
    split_ifs <;> simp_all
  | collideTick =>
    simp only [applyOp, collisionCheckStep]
    split_ifs <;> simp_all
  | startBtn => simpa [applyOp, startGame] using ht
  | pauseBtn => simpa [applyOp, pauseGame] using ht
  | resetBtn => simpa [applyOp, resetGame, startGame] using ht
  | crawlTimerFire => simp [Op.isCrawlFire] at hop

/-- **C9**  A crawl input latched while `running` (and `playing`) switches the
state to `crawling` and schedules the one-shot revert 600 ms ahead; the
pending callback survives every event other than its own firing — including
game over — and when it fires it sets the state back to `running`
unconditionally, whatever the game state is by then. -/
theorem crawl_spec :
    (∀ (s : Session) (now : ℚ), s.gameState = GameState.playing →
      hasDown s.keysPressed = true →
      s.bottomPlayerState = BottomPlayerState.running →
      (updatePlayers now s).bottomPlayerState = BottomPlayerState.crawling ∧
      (now + 600) ∈ (updatePlayers now s).crawlTimers) ∧
    (∀ s : Session, s.crawlTimers ≠ [] →
      (fireCrawlTimer s).bottomPlayerState = BottomPlayerState.running) ∧
    (∀ (s : Session) (op : Op) (t : ℚ), op.isCrawlFire = false →
      t ∈ s.crawlTimers → t ∈ (applyOp s op).crawlTimers) := by
  refine ⟨?_, ?_, applyOp_timers_kept⟩
  · intro s now hplay hd hrun
    simp only [updatePlayers, if_pos hplay]
    split_ifs <;> simp_all
  · intro s h
    rw [fireCrawlTimer]
    cases hc : s.crawlTimers with
    | nil => exact absurd hc h
    | cons t rest => simp

/-- Witness for C9: pressing the crawl key in the fresh session latches
`crawling`, and a pending revert fires even in `gameOver`. -/
theorem crawl_spec_witness :
    (updatePlayers 0 (handleKeyDown Key.arrowDown (startGame initSession))).bottomPlayerState
      = BottomPlayerState.crawling ∧
    (fireCrawlTimer
        { initSession with gameState := GameState.gameOver, crawlTimers := [600] }
      ).bottomPlayerState = BottomPlayerState.running := by
  refine ⟨(crawl_spec.1 (handleKeyDown Key.arrowDown (startGame initSession)) 0
    rfl (by decide) rfl).1, crawl_spec.2.1 _ (by simp)⟩

/-! ### C10: frame invariants of the two players -/

lemma frame_pres (s : Session) (op : Op)
    (h : s.bottomPlayer.x = 100 ∧ s.topPlayer.y = TOP_PLAYER_Y) :
    (applyOp s op).bottomPlayer.x = 100 ∧ (applyOp s op).topPlayer.y = TOP_PLAYER_Y := by
  obtain ⟨hb, ht⟩ := h
  cases op with
  | keydown k =>
    simp only [applyOp, handleKeyDown]
    split_ifs <;> simp_all
  | keyup k => simp [applyOp, handleKeyUp, hb, ht]
  | playersTick now =>
    simp only [applyOp, updatePlayers]
    split_ifs <;> simp_all
  | jumpTick =>
    simp only [applyOp, jumpPhysicsStep]
    split_ifs <;> simp_all
  | loopTick r =>
    simp only [applyOp, gameLoopTick]
    split_ifs <;> simp_all
  | collideTick =>
    simp only [applyOp, collisionCheckStep]
    split_ifs <;> simp_all
  | startBtn => simp [applyOp, startGame]
  | pauseBtn => simp [applyOp, pauseGame, hb, ht]
  | resetBtn => simp [applyOp, resetGame, startGame]
  | crawlTimerFire =>
    simp only [applyOp, fireCrawlTimer]
    cases s.crawlTimers <;> simp_all

/-- **C10**  Across every event interleaving of a session the bottom player's
x stays 100 and the top player's y stays `GAME_HEIGHT - 40`: input handling
and jump physics only move the bottom player vertically, and lane changes
only move the top player horizontally. -/
theorem frame_fixed_coords :
    ∀ ops : List Op,
      (runOps initSession ops).bottomPlayer.x = 100 ∧
      (runOps initSession ops).topPlayer.y = TOP_PLAYER_Y :=
  fun ops => runOps_inv frame_pres ops initSession ⟨rfl, rfl⟩

/-! ### C5: top-stream spawn batches -/

lemma LANE_WIDTH_eq : LANE_WIDTH = 96 := by
  norm_num [LANE_WIDTH, ROAD_WIDTH, GAME_WIDTH, LANES]

lemma numTopObstacles_bounds (r : ℚ) (h0 : 0 ≤ r) (h1 : r < 1) :
    1 ≤ numTopObstacles r ∧ numTopObstacles r ≤ LANES - 1 := by
  have h4 : ((LANES : ℚ) - 1) = 4 := by norm_num [LANES]
  have hfloor : ⌊r * ((LANES : ℚ) - 1)⌋ < 4 := by
    rw [h4]
    apply Int.floor_lt.mpr
    push_cast
    nlinarith
  rw [numTopObstacles, LANES] at *
  omega

lemma topSpawnBatch_length (nr : ℚ) (perm : List ℕ)
    (hp : perm.Perm (List.range LANES)) (h0 : 0 ≤ nr) (h1 : nr < 1) :
    (topSpawnBatch nr perm).length = numTopObstacles nr := by
  have hlen : perm.length = LANES := by rw [hp.length_eq, List.length_range]
  have hb := (numTopObstacles_bounds nr h0 h1).2
  rw [topSpawnBatch, List.length_map, List.length_take, hlen]
  rw [LANES] at *
  omega

lemma topSpawnBatch_lanes_nodup (nr : ℚ) (perm : List ℕ)
    (hp : perm.Perm (List.range LANES)) :
    ((topSpawnBatch nr perm).map Obstacle.lane).Nodup := by
  have hnd : perm.Nodup := hp.nodup_iff.mpr (List.nodup_range LANES)
  have htake : (perm.take (numTopObstacles nr)).Nodup :=
    (List.take_sublist _ _).nodup hnd
  rw [topSpawnBatch, List.map_map]
  have hfun : (Obstacle.lane ∘ mkTopObstacle) = fun l : ℕ => some l := funext fun l => rfl
  rw [hfun]
  exact htake.map (fun a b h => Option.some.inj h)

lemma topSpawnBatch_mem (nr : ℚ) (perm : List ℕ)
    (hp : perm.Perm (List.range LANES)) :
    ∀ o ∈ topSpawnBatch nr perm, o.y = -30 ∧
      ∃ l : ℕ, o.lane = some l ∧ l < LANES ∧
        ROAD_OFFSET + (l : ℚ) * LANE_WIDTH ≤ o.x ∧
        o.x + o.width ≤ ROAD_OFFSET + ((l : ℚ) + 1) * LANE_WIDTH := by
  intro o ho
  rw [topSpawnBatch, List.mem_map] at ho
  obtain ⟨l, hl, rfl⟩ := ho
  have hlmem : l ∈ perm := List.take_subset _ _ hl
  have hlt : l < LANES := List.mem_range.mp (hp.mem_iff.mp hlmem)
  refine ⟨rfl, l, rfl, hlt, ?_, ?_⟩
  · show ROAD_OFFSET + (l : ℚ) * LANE_WIDTH ≤
      ROAD_OFFSET + (l : ℚ) * LANE_WIDTH + LANE_WIDTH * 0.1
    rw [LANE_WIDTH_eq]
    norm_num
  · show ROAD_OFFSET + (l : ℚ) * LANE_WIDTH + LANE_WIDTH * 0.1 + LANE_WIDTH * 0.8 ≤
      ROAD_OFFSET + ((l : ℚ) + 1) * LANE_WIDTH
    rw [LANE_WIDTH_eq]
    ring_nf
    norm_num

lemma gameLoopTick_topSpawn (r : TickRand) (s : Session)
    (hplay : s.gameState = GameState.playing)
    (hd : r.topGate < 0.015 ∧ r.now - s.lastTopObstacleTime > 2000) :
    (gameLoopTick r s).topObstacles =
      movedTopObstacles s ++ topSpawnBatch r.numRand r.lanePerm ∧
    (gameLoopTick r s).lastTopObstacleTime = r.now := by
  simp only [gameLoopTick, if_pos hplay]
  constructor <;> simp [if_pos hd]

lemma gameLoopTick_noTopSpawn (r : TickRand) (s : Session)
    (hplay : s.gameState = GameState.playing)
    (htime : r.now - s.lastTopObstacleTime < 2000) :
    (gameLoopTick r s).topObstacles = movedTopObstacles s ∧
    (gameLoopTick r s).lastTopObstacleTime = s.lastTopObstacleTime := by
  have hd : ¬ (r.topGate < 0.015 ∧ r.now - s.lastTopObstacleTime > 2000) :=
    fun h => absurd h.2 (by linarith)
  simp only [gameLoopTick, if_pos hplay]
  constructor <;> simp [if_neg hd]

/-- **C5**  When the top stream spawns (per-tick gate passed and more than
2000 ms since the last top spawn), the appended batch holds between 1 and
`LANES - 1` obstacles in pairwise distinct lanes — never all `LANES` lanes —
each starting at y = −30 with x and width inside its lane's horizontal band;
with less than 2000 ms elapsed nothing is spawned and the bookkeeping is
untouched. -/
theorem topSpawn_spec :
    ∀ (s : Session) (r : TickRand), s.gameState = GameState.playing →
      r.lanePerm.Perm (List.range LANES) → 0 ≤ r.numRand → r.numRand < 1 →
      ((r.topGate < 0.015 ∧ r.now - s.lastTopObstacleTime > 2000) →
        (gameLoopTick r s).topObstacles =
          movedTopObstacles s ++ topSpawnBatch r.numRand r.lanePerm ∧
        (gameLoopTick r s).lastTopObstacleTime = r.now ∧
        1 ≤ (topSpawnBatch r.numRand r.lanePerm).length ∧
        (topSpawnBatch r.numRand r.lanePerm).length ≤ LANES - 1 ∧
        ((topSpawnBatch r.numRand r.lanePerm).map Obstacle.lane).Nodup ∧
        ∀ o ∈ topSpawnBatch r.numRand r.lanePerm, o.y = -30 ∧
          ∃ l : ℕ, o.lane = some l ∧ l < LANES ∧
            ROAD_OFFSET + (l : ℚ) * LANE_WIDTH ≤ o.x ∧
            o.x + o.width ≤ ROAD_OFFSET + ((l : ℚ) + 1) * LANE_WIDTH) ∧
      (r.now - s.lastTopObstacleTime < 2000 →
        (gameLoopTick r s).topObstacles = movedTopObstacles s ∧
        (gameLoopTick r s).lastTopObstacleTime = s.lastTopObstacleTime) := by
  intro s r hplay hp h0 h1
  refine ⟨fun hd => ?_, fun ht => gameLoopTick_noTopSpawn r s hplay ht⟩
  obtain ⟨he, hl⟩ := gameLoopTick_topSpawn r s hplay hd
  have hlen := topSpawnBatch_length r.numRand r.lanePerm hp h0 h1
  have hb := numTopObstacles_bounds r.numRand h0 h1
  exact ⟨he, hl, hlen ▸ hb.1, hlen ▸ hb.2,
    topSpawnBatch_lanes_nodup r.numRand r.lanePerm hp,
    topSpawnBatch_mem r.numRand r.lanePerm hp⟩

/-- Witness for C5: the gate-passing tick `spawnTickRand` on the freshly
started session stamps the spawn time 3000. -/
theorem topSpawn_spec_witness :
    (gameLoopTick spawnTickRand (startGame initSession)).lastTopObstacleTime = 3000 := by
  have h := (topSpawn_spec (startGame initSession) spawnTickRand rfl
    (by decide) (by norm_num [spawnTickRand]) (by norm_num [spawnTickRand])).1
    ⟨by norm_num [spawnTickRand], by norm_num [spawnTickRand, startGame, initSession]⟩
  exact h.2.1

/-! ### C7: bottom obstacle type distribution -/

/-- **C7 counterexample**  The split is not into three equal ranges: the draw
33/100 lies below 1/3, yet it selects `ground_box`, not `pit` — the `pit`
preimage is `[0, 0.33)`, strictly shorter than a third. -/
theorem chooseBottomType_not_equal_thirds :
    chooseBottomType (33/100) = ObstacleType.ground_box ∧ (33 : ℚ)/100 < 1/3 := by
  constructor
  · rw [chooseBottomType, if_neg (by norm_num), if_pos (by norm_num)]
  · norm_num

/-- **C7 (amended)**  The single draw is split at the thresholds 0.33 and
0.66: `pit` on `[0, 0.33)`, `ground_box` on `[0.33, 0.66)` and `air_branch`
on `[0.66, 1)`, so the probabilities are 0.33, 0.33 and 0.34 — close to but
not exactly one third each. -/
theorem chooseBottomType_intervals :
    ∀ r : ℚ, 0 ≤ r → r < 1 →
      (chooseBottomType r = ObstacleType.pit ↔ r < 33/100) ∧
      (chooseBottomType r = ObstacleType.ground_box ↔ 33/100 ≤ r ∧ r < 66/100) ∧
      (chooseBottomType r = ObstacleType.air_branch ↔ 66/100 ≤ r) := by
  intro r _ _
  have h33 : (0.33 : ℚ) = 33/100 := by norm_num
  have h66 : (0.66 : ℚ) = 66/100 := by norm_num
  rw [chooseBottomType, h33, h66]
  by_cases hp : r < 33/100
  · rw [if_pos hp]
    refine ⟨by simp [hp], ⟨fun h => ObstacleType.noConfusion h, ?_⟩,
      fun h => ObstacleType.noConfusion h, fun h => by linarith⟩
    rintro ⟨h1, -⟩
    linarith
  · rw [if_neg hp]
    by_cases hg : r < 66/100
    · rw [if_pos hg]
      exact ⟨⟨fun h => ObstacleType.noConfusion h, fun h => by linarith⟩,
        by simp [not_lt.mp hp, hg],
        fun h => ObstacleType.noConfusion h, fun h => by linarith⟩
    · rw [if_neg hg]
      refine ⟨⟨fun h => ObstacleType.noConfusion h, fun h => by linarith⟩,
        ⟨fun h => ObstacleType.noConfusion h, ?_⟩, by simp [not_lt.mp hg]⟩
      rintro ⟨-, h2⟩
      linarith

/-- Witness for C7's amended theorem: the draw 1/2 selects `ground_box`. -/
theorem chooseBottomType_intervals_witness :
    chooseBottomType (1/2) = ObstacleType.ground_box :=
  ((chooseBottomType_intervals (1/2) (by norm_num) (by norm_num)).2.1).mpr
    ⟨by norm_num, by norm_num⟩

/-! ### C8: start/reset restore the session -/

/-- **C8 counterexample**  One obstacle-free loop tick from a fresh start
drifts `lastBottomObstacleX` from its initial 800 to 798, and neither the
start action nor the reset action restores it. -/
theorem start_reset_keep_lastBottomObstacleX :
    (startGame (gameLoopTick noSpawnTickRand (startGame initSession))).lastBottomObstacleX ≠
      initSession.lastBottomObstacleX ∧
    (resetGame (gameLoopTick noSpawnTickRand (startGame initSession))).lastBottomObstacleX ≠
      initSession.lastBottomObstacleX := by
  have hx : (gameLoopTick noSpawnTickRand (startGame initSession)).lastBottomObstacleX
      = 798 := by
    have hno : ¬ ((noSpawnTickRand.bottomGate < 0.015) ∧
        GAME_WIDTH - (startGame initSession).lastBottomObstacleX > MIN_OBSTACLE_DISTANCE) := by
      rintro ⟨h, -⟩
      norm_num [noSpawnTickRand] at h
    simp only [gameLoopTick, if_pos (rfl : (startGame initSession).gameState =
      GameState.playing)]
    simp [if_neg hno, startGame, initSession, GAME_WIDTH]
    norm_num
  constructor
  · show (gameLoopTick noSpawnTickRand (startGame initSession)).lastBottomObstacleX ≠ _
    rw [hx]
    norm_num [initSession, GAME_WIDTH]
  · show (gameLoopTick noSpawnTickRand (startGame initSession)).lastBottomObstacleX ≠ _
    rw [hx]
    norm_num [initSession, GAME_WIDTH]

/-- **C8 (amended)**  Start (also from `gameOver`) and reset restore the
players, the top lane, both obstacle lists, the score, all three speed
scalars, the motion state, the jump velocity and the top-stream spawn time to
their initial values — but the bottom-stream last-spawn position
`lastBottomObstacleX` is left at whatever value it had. -/
theorem start_reset_restore_fields :
    ∀ s : Session,
      (startGame s).gameState = GameState.playing ∧
      (resetGame s).gameState = GameState.idle ∧
      (startGame s).score = initSession.score ∧
      (startGame s).bottomPlayer = initSession.bottomPlayer ∧
      (startGame s).topPlayer = initSession.topPlayer ∧
      (startGame s).topPlayerLane = initSession.topPlayerLane ∧
      (startGame s).bottomObstacles = initSession.bottomObstacles ∧
      (startGame s).topObstacles = initSession.topObstacles ∧
      (startGame s).gameSpeed = initSession.gameSpeed ∧
      (startGame s).topScreenSpeed = initSession.topScreenSpeed ∧
      (startGame s).bottomScreenSpeed = initSession.bottomScreenSpeed ∧
      (startGame s).bottomPlayerState = initSession.bottomPlayerState ∧
      (startGame s).jumpVelocity = initSession.jumpVelocity ∧
      (startGame s).lastTopObstacleTime = initSession.lastTopObstacleTime ∧
      (startGame s).lastBottomObstacleX = s.lastBottomObstacleX ∧
      resetGame s = { startGame s with gameState := GameState.idle } := by
  intro s
  refine ⟨rfl, rfl, rfl, rfl, rfl, rfl, rfl, rfl, rfl, rfl, rfl, rfl, rfl, rfl, rfl, rfl⟩

end Parkour
